import Mathlib

/-!
Verification of the SmartRedressal AI analysis service
(`ai-service/app.py`): a shallow embedding of the keyword-based
category classifier, the rule-based sentiment analyzer, the priority
resolver, and the analyze pipeline, together with proofs of the
specified properties.

Modelling conventions:
* Python strings are Lean `String`; `s.lower()` is `pyLower` below
  (per-character lowercasing over the character list, the ASCII
  fragment of `str.lower`), and the Python substring test
  `needle in haystack` is `strContains` below (naive substring scan
  over the character lists).
* Confidences (Python floats built from the literals 0.5, 0.6, 0.7,
  `score/5.0`, `score/3.0` and probabilities) are modelled as `ℚ`.
* The statistical model (the module globals `vectorizer`/`classifier`
  and the `predict`/`predict_proba` call) is an external oracle: it is
  passed to `classify_category` as an `Option (String × ℚ)` argument.
  `none` covers both "globals are None" and "prediction raised"
  (the bare `except: pass` leaves `ml_category = None`);
  `some (c, p)` is a successful prediction of category `c` with
  maximum class probability `p`.  `classify_categoryE` makes the
  exception path explicit via `Except`.
-/

/-- Test whether the first character list is an initial segment of the
second (used to implement the Python substring test). -/
def leadEq : List Char → List Char → Bool
  | [], _ => true
  | _ :: _, [] => false
  | a :: as, b :: bs => a == b && leadEq as bs

/-- Test whether `kw` occurs as a contiguous segment of the second list
(the semantics of the Python `in` operator on strings). -/
def occursIn (kw : List Char) : List Char → Bool
  | [] => kw.isEmpty
  | b :: bs => leadEq kw (b :: bs) || occursIn kw bs

/-- Python `needle in haystack` for strings. -/
def strContains (haystack needle : String) : Bool :=
  occursIn needle.toList haystack.toList

/-- Python `text.lower()`, modelled as per-character lowercasing. -/
def pyLower (s : String) : String := String.mk (s.data.map Char.toLower)

/-- Table `CATEGORY_KEYWORDS` from `app.py`, in declaration order
(Python dicts preserve insertion order). -/
def CATEGORY_KEYWORDS : List (String × List String) :=
  [ ("Municipal",
     ["road", "street", "pothole", "garbage", "waste", "drainage", "sewage",
      "streetlight", "park", "municipal", "city", "urban", "sidewalk",
      "traffic light", "public toilet", "public space"]),
    ("Healthcare",
     ["hospital", "clinic", "doctor", "medicine", "health", "medical",
      "treatment", "patient", "ambulance", "pharmacy", "nurse", "healthcare",
      "health care", "heart", "stroke", "cardiac", "emergency", "surgery",
      "disease", "illness", "symptom", "diagnosis", "prescription",
      "medication", "therapy", "vaccine", "covid", "coronavirus", "fever",
      "pain", "injury", "wound", "blood", "cancer", "diabetes",
      "hypertension", "asthma", "infection", "virus", "bacteria"]),
    ("Education",
     ["school", "college", "university", "teacher", "student", "education",
      "exam", "admission", "curriculum", "tuition", "scholarship",
      "textbook", "library", "classroom", "principal", "faculty"]),
    ("Transport",
     ["bus", "train", "metro", "traffic", "parking", "vehicle", "transport",
      "road", "highway", "public transport", "taxi", "cab", "subway",
      "tram", "bike", "bicycle", "lane"]),
    ("Utilities",
     ["electricity", "water", "power", "gas", "internet", "phone",
      "utility", "bill", "connection", "electric", "plumbing", "heating",
      "cooling", "ac", "air conditioning", "sewer", "cable"]),
    ("Other", []) ]

/-- The comprehension `sum(1 for keyword in keywords if keyword in text_lower)`:
the number of (distinct) keywords of the list occurring as substrings
of `text_lower`.  Shared by the category scorer and the sentiment
analyzer, which use the same comprehension pattern. -/
def countHits (keywords : List String) (text_lower : String) : Nat :=
  (keywords.filter (fun kw => strContains text_lower kw)).length

/-- One step of the `category_scores` loop body: keep `(category, score)`
only when `score > 0`. -/
def scoreEntry (text_lower : String) (p : String × List String) :
    Option (String × Nat) :=
  if 0 < countHits p.2 text_lower then some (p.1, countHits p.2 text_lower)
  else none

/-- The `category_scores` dict of `classify_category`, as an association
list in `CATEGORY_KEYWORDS` declaration order (Python dict insertion
order).  Lowercasing of the scored text happens here, as in
`text_lower = text.lower()`. -/
def categoryScores (text : String) : List (String × Nat) :=
  CATEGORY_KEYWORDS.filterMap (scoreEntry (pyLower text))

/-- The fold computing `max(category_scores, key=category_scores.get)`
together with the subsequent count lookup: CPython `max` keeps the
current maximum on ties, so the first key attaining the maximum wins. -/
def foldBest (x : String × Nat) (xs : List (String × Nat)) : String × Nat :=
  xs.foldl (fun best y => if best.2 < y.2 then y else best) x

/-- The pair `(best_category, best_score)` of `classify_category`; `none` when the
score dict is empty (Python `max` is never called on an empty dict in
the source: the lookup is guarded by `if category_scores:`). -/
def pickBest : List (String × Nat) → Option (String × Nat)
  | [] => none
  | x :: xs => some (foldBest x xs)

/-- Function `classify_category` from `app.py`.  `ml` is the statistical-model
oracle (see the header comment).  The source returns early inside
`if best_score >= 2`, so the later `if category_scores and
best_score >= 2` branch is unreachable; the functional embedding
mirrors the reachable control flow. -/
def classify_category (text : String) (ml : Option (String × ℚ)) :
    String × ℚ :=
  -- `if not text: return 'Other', 0.5` (only the empty string is falsy)
  if text = "" then ("Other", 1/2)
  else
    match pickBest (categoryScores text) with
    | some (best_category, best_score) =>
      -- `if best_score >= 2: return best_category, min(best_score/5.0, 1.0)`
      if 2 ≤ best_score then
        (best_category, min ((best_score : ℚ) / 5) 1)
      else
        -- `keyword_confidence = min(best_score / 3.0, 0.7)`, then consult ML
        let keyword_confidence : ℚ := min ((best_score : ℚ) / 3) (7/10)
        match ml with
        | some (ml_category, ml_confidence) =>
          -- `elif ml_category and ml_confidence > 0.6` … `elif category_scores`
          if (3 : ℚ)/5 < ml_confidence then (ml_category, ml_confidence)
          else (best_category, keyword_confidence)
        | none => (best_category, keyword_confidence)
    | none =>
      -- no keyword evidence: `elif ml_category and ml_confidence > 0.6`,
      -- `elif ml_category`, `return 'Other', 0.5`
      match ml with
      | some (ml_category, ml_confidence) => (ml_category, ml_confidence)
      | none => ("Other", 1/2)

/-- The `try: … predict … except: pass` wrapper: any raised prediction
failure leaves `ml_category = None`, i.e. no ML signal. -/
def mlSignal : Except String (String × ℚ) → Option (String × ℚ)
  | Except.ok r => some r
  | Except.error _ => none

/-- Function `classify_category` with the prediction step's failure made explicit:
an `Except.error` models any exception raised by
`vectorizer.transform` / `classifier.predict`. -/
def classify_categoryE (text : String)
    (pred : Except String (String × ℚ)) : String × ℚ :=
  classify_category text (mlSignal pred)

/-- List `negative_keywords` of `analyze_sentiment`. -/
def negative_keywords : List String :=
  ["bad", "terrible", "awful", "horrible", "worst", "disappointed",
   "frustrated", "angry", "urgent", "emergency", "critical", "broken",
   "failed", "not working", "problem", "issue", "complaint"]

/-- List `positive_keywords` of `analyze_sentiment`. -/
def positive_keywords : List String :=
  ["good", "great", "excellent", "satisfied", "happy", "thank", "appreciate"]

/-- Function `analyze_sentiment` from `app.py`. -/
def analyze_sentiment (text : String) : String :=
  if text = "" then "Neutral"
  else
    let text_lower := pyLower text
    let negative_count := countHits negative_keywords text_lower
    let positive_count := countHits positive_keywords text_lower
    if negative_count > positive_count ∧ negative_count > 2 then "Negative"
    else if positive_count > negative_count then "Positive"
    else "Neutral"

/-- List `high_priority_keywords` of `determine_priority`. -/
def high_priority_keywords : List String :=
  ["urgent", "emergency", "critical", "immediate", "asap",
   "dangerous", "safety", "accident", "fire", "flood"]

/-- Function `determine_priority` from `app.py`. -/
def determine_priority (text sentiment category : String) : String :=
  let text_lower := pyLower text
  if high_priority_keywords.any (fun kw => strContains text_lower kw) then
    "Critical"
  else if (category = "Healthcare" ∨ category = "Utilities") ∧
      sentiment = "Negative" then
    "High"
  else if sentiment = "Negative" then "High"
  else if sentiment = "Neutral" then "Medium"
  else "Low"

/-- The `AnalysisResult` record produced by the analyze endpoint. -/
structure AnalysisResult where
  category : String
  sentiment : String
  priority : String
  confidence : ℚ
deriving DecidableEq

/-- The core of the `/api/analyze` handler `analyze_complaint`
(HTTP marshaling and the final 2-decimal rounding of the confidence
stripped; missing JSON fields default to the empty string upstream).
`full_text = f"{title} {description}"` joins with a single space. -/
def analyze_complaint (title description : String)
    (ml : Option (String × ℚ)) : AnalysisResult :=
  let full_text := title ++ " " ++ description
  let c := classify_category full_text ml
  let sentiment := analyze_sentiment full_text
  let priority := determine_priority full_text sentiment c.1
  ⟨c.1, sentiment, priority, c.2⟩

/-- The closed category set of the spec data model. -/
def CATEGORIES : List String :=
  ["Municipal", "Healthcare", "Education", "Transport", "Utilities", "Other"]

/-- The non-fallback categories, in `CATEGORY_KEYWORDS` declaration order. -/
def KEYWORD_CATEGORIES : List String :=
  ["Municipal", "Healthcare", "Education", "Transport", "Utilities"]

/-- The CategoryResolver decision table as the spec states it
(spec 4.4, steps 1–5), written from the spec wording for comparison
with `classify_category`. -/
def categoryResolverSpec (scores : List (String × Nat))
    (ml : Option (String × ℚ)) : String × ℚ :=
  match pickBest scores with
  | some (best_category, best_count) =>
    -- step 1: best count ≥ 2
    if 2 ≤ best_count then (best_category, min ((best_count : ℚ) / 5) 1)
    else
      match ml with
      | some (ml_category, ml_confidence) =>
        -- step 2: confident ML prediction, else step 3: weak keyword
        if (3 : ℚ)/5 < ml_confidence then (ml_category, ml_confidence)
        else (best_category, min ((1 : ℚ)/3) (7/10))
      | none => (best_category, min ((1 : ℚ)/3) (7/10))
  | none =>
    match ml with
    -- step 4: any ML prediction at all, else step 5: default
    | some (ml_category, ml_confidence) => (ml_category, ml_confidence)
    | none => ("Other", 1/2)

/-- The PriorityResolver four-rule table as the spec states it
(spec 4.6), written from the spec wording for comparison with
`determine_priority`. -/
def priorityTableSpec (text sentiment : String) : String :=
  if high_priority_keywords.any (fun kw => strContains (pyLower text) kw) then
    "Critical"
  else if sentiment = "Negative" then "High"
  else if sentiment = "Neutral" then "Medium"
  else "Low"

/-! ## Helper lemmas about the best-category fold and the score map -/

lemma foldBest_nil (x : String × Nat) : foldBest x [] = x := rfl

lemma foldBest_cons (x y : String × Nat) (ys : List (String × Nat)) :
    foldBest x (y :: ys) = foldBest (if x.2 < y.2 then y else x) ys := rfl

/-- The fold only ever moves to a strictly larger count. -/
lemma le_foldBest (xs : List (String × Nat)) (x : String × Nat) :
    x.2 ≤ (foldBest x xs).2 := by
  induction xs generalizing x with
  | nil => exact le_refl _
  | cons y ys ih =>
    rw [foldBest_cons]
    refine le_trans ?_ (ih _)
    split
    · exact le_of_lt (by assumption)
    · exact le_refl _

/-- Position of the fold result in the scanned list: everything strictly
before it has a strictly smaller count (CPython `max` keeps the current
maximum on ties), everything after it has a count at most as large. -/
lemma foldBest_split (xs : List (String × Nat)) (x : String × Nat) :
    ∃ l₁ l₂, x :: xs = l₁ ++ foldBest x xs :: l₂ ∧
      (∀ p ∈ l₁, p.2 < (foldBest x xs).2) ∧
      (∀ p ∈ l₂, p.2 ≤ (foldBest x xs).2) := by
  induction xs generalizing x with
  | nil => exact ⟨[], [], rfl, by simp, by simp⟩
  | cons y ys ih =>
    rw [foldBest_cons]
    by_cases h : x.2 < y.2
    · rw [if_pos h]
      obtain ⟨l₁, l₂, heq, h₁, h₂⟩ := ih y
      refine ⟨x :: l₁, l₂, by rw [List.cons_append, ← heq], ?_, h₂⟩
      intro p hp
      rcases List.mem_cons.mp hp with rfl | hp
      · exact lt_of_lt_of_le h (le_foldBest ys y)
      · exact h₁ p hp
    · rw [if_neg h]
      obtain ⟨l₁, l₂, heq, h₁, h₂⟩ := ih x
      cases l₁ with
      | nil =>
        simp only [List.nil_append] at heq
        injection heq with hx hl
        refine ⟨[], y :: ys, by rw [List.nil_append, ← hx], by simp, ?_⟩
        intro p hp
        rcases List.mem_cons.mp hp with rfl | hp
        · rw [← hx]; exact le_of_not_lt h
        · exact h₂ p (hl ▸ hp)
      | cons a l₁ =>
        simp only [List.cons_append] at heq
        injection heq with hx hl
        subst hx
        have hxlt : x.2 < (foldBest x ys).2 :=
          h₁ x (List.mem_cons_self x l₁)
        refine ⟨x :: y :: l₁, l₂,
          by rw [List.cons_append, List.cons_append, ← hl], ?_, h₂⟩
        intro p hp
        rcases List.mem_cons.mp hp with rfl | hp
        · exact hxlt
        rcases List.mem_cons.mp hp with rfl | hp
        · exact lt_of_le_of_lt (le_of_not_lt h) hxlt
        · exact h₁ p (List.mem_cons_of_mem _ hp)

/-- The fold result is an element of the scanned list. -/
lemma foldBest_mem (xs : List (String × Nat)) (x : String × Nat) :
    foldBest x xs ∈ x :: xs := by
  obtain ⟨l₁, l₂, heq, -, -⟩ := foldBest_split xs x
  rw [heq]
  exact List.mem_append_right _ (List.mem_cons_self _ _)

/-- Membership fact for `pickBest`. -/
lemma pickBest_mem {l : List (String × Nat)} {b : String × Nat}
    (h : pickBest l = some b) : b ∈ l := by
  cases l with
  | nil => exact Option.noConfusion h
  | cons x xs =>
    injection h with h
    rw [← h]
    exact foldBest_mem xs x

/-- Every entry of the score map has a positive count and a category of
the keyword table other than `Other` (whose keyword list is empty). -/
lemma mem_categoryScores {t : String} {p : String × Nat}
    (hp : p ∈ categoryScores t) : 1 ≤ p.2 ∧ p.1 ∈ KEYWORD_CATEGORIES := by
  unfold categoryScores at hp
  rw [List.mem_filterMap] at hp
  obtain ⟨a, ha, hfa⟩ := hp
  unfold scoreEntry at hfa
  split at hfa
  · next h0 =>
    injection hfa with hfa
    subst hfa
    refine ⟨h0, ?_⟩
    simp only [CATEGORY_KEYWORDS, List.mem_cons, List.not_mem_nil, or_false] at ha
    rcases ha with rfl | rfl | rfl | rfl | rfl | rfl
    · exact (by decide : ("Municipal" : String) ∈ KEYWORD_CATEGORIES)
    · exact (by decide : ("Healthcare" : String) ∈ KEYWORD_CATEGORIES)
    · exact (by decide : ("Education" : String) ∈ KEYWORD_CATEGORIES)
    · exact (by decide : ("Transport" : String) ∈ KEYWORD_CATEGORIES)
    · exact (by decide : ("Utilities" : String) ∈ KEYWORD_CATEGORIES)
    · exact absurd h0 (lt_irrefl 0)
  · exact Option.noConfusion hfa

/-- The loop body keeps the category name of the scanned entry. -/
lemma scoreEntry_fst {tl : String} {a : String × List String}
    {b : String × Nat} (h : scoreEntry tl a = some b) : b.1 = a.1 := by
  unfold scoreEntry at h
  split at h
  · injection h with h
    rw [← h]
  · exact Option.noConfusion h

/-- The score map lists categories in the scanned order: its category
names form a sublist of the scanned table's names. -/
lemma map_fst_filterMap_sublist (tl : String)
    (l : List (String × List String)) :
    ((l.filterMap (scoreEntry tl)).map Prod.fst).Sublist
      (l.map Prod.fst) := by
  induction l with
  | nil => simp
  | cons a as ih =>
    rw [List.filterMap_cons]
    cases hb : scoreEntry tl a with
    | none =>
      simp only [List.map_cons]
      exact ih.cons a.1
    | some b =>
      simp only [List.map_cons]
      rw [scoreEntry_fst hb]
      exact ih.cons₂ a.1

/-- Scanning the `Other` entry contributes nothing (its keyword list is
empty), so the score map is the scan of the first five entries. -/
lemma categoryScores_eq_take5 (t : String) :
    categoryScores t =
      (List.take 5 CATEGORY_KEYWORDS).filterMap (scoreEntry (pyLower t)) :=
  rfl

/-- The categories of the score map, in order, form a sublist of the
declaration order Municipal, Healthcare, Education, Transport,
Utilities. -/
lemma categoryScores_sublist (t : String) :
    ((categoryScores t).map Prod.fst).Sublist KEYWORD_CATEGORIES := by
  rw [categoryScores_eq_take5]
  exact map_fst_filterMap_sublist (pyLower t) (List.take 5 CATEGORY_KEYWORDS)

/-- When the best keyword count is at least 2, `classify_category`
returns the best keyword category with confidence `min(best/5, 1)`,
whatever the state of the statistical model. -/
lemma classify_strong (text : String) (c : String) (n : Nat)
    (ml : Option (String × ℚ)) (hne : text ≠ "")
    (h : pickBest (categoryScores text) = some (c, n)) (h2 : 2 ≤ n) :
    classify_category text ml = (c, min ((n : ℚ) / 5) 1) := by
  unfold classify_category
  rw [if_neg hne]
  split
  · next best_category best_score heq =>
    injection h.symm.trans heq with hcn
    injection hcn with hc hn
    subst hc
    subst hn
    rw [if_pos h2]
  · next heq =>
    rw [h] at heq
    exact Option.noConfusion heq

/-! ## Claim C1 — the CategoryResolver decision table -/

/-- C1 (amended): for every non-empty input text and every state of the
statistical model, `classify_category` follows the five-step decision
table of spec 4.4 exactly; the empty input is excluded because the
source short-circuits to `('Other', 0.5)` before consulting the model
(see the counterexample below). -/
theorem classify_category_follows_table (text : String)
    (ml : Option (String × ℚ)) (hne : text ≠ "") :
    classify_category text ml =
      categoryResolverSpec (categoryScores text) ml := by
  unfold classify_category categoryResolverSpec
  rw [if_neg hne]
  split
  · next best_category best_score heq =>
    by_cases h2 : 2 ≤ best_score
    · simp only [if_pos h2]
    · simp only [if_neg h2]
      have h1 : 1 ≤ best_score :=
        (mem_categoryScores (pickBest_mem heq)).1
      have hn : best_score = 1 := by omega
      subst hn
      rw [Nat.cast_one]
  · rfl

/-- C1 counterexample: on the empty text the source returns
`('Other', 0.5)` before the model is consulted, while step 2 of the
spec's table would return an available confident ML prediction. -/
theorem classify_category_table_counterexample :
    classify_category "" (some ("Municipal", 9/10)) ≠
      categoryResolverSpec (categoryScores "") (some ("Municipal", 9/10)) := by
  decide

/-- Witness for C1 at a concrete non-empty text. -/
theorem classify_category_follows_table_witness :
    classify_category "road" none =
      categoryResolverSpec (categoryScores "road") none :=
  classify_category_follows_table "road" none (by decide)

/-! ## Claim C4 — best-category selection and tie-breaking -/

/-- C4: the selected best category attains a strictly higher count than
every score-map entry before it and at least the count of every entry
after it (so the maximum count wins and ties resolve to the earliest
entry), and the score map lists categories in the keyword table's
declaration order Municipal, Healthcare, Education, Transport,
Utilities.  The selection is a pure function of the text, hence
deterministic across runs. -/
theorem best_category_tie_break (text c : String) (n : Nat)
    (h : pickBest (categoryScores text) = some (c, n)) :
    (∃ l₁ l₂, categoryScores text = l₁ ++ (c, n) :: l₂ ∧
        (∀ p ∈ l₁, p.2 < n) ∧ (∀ p ∈ l₂, p.2 ≤ n)) ∧
    ((categoryScores text).map Prod.fst).Sublist KEYWORD_CATEGORIES := by
  refine ⟨?_, categoryScores_sublist text⟩
  cases hs : categoryScores text with
  | nil => rw [hs] at h; exact Option.noConfusion h
  | cons x xs =>
    rw [hs] at h
    injection h with h
    obtain ⟨l₁, l₂, heq, h₁, h₂⟩ := foldBest_split xs x
    rw [h] at heq h₁ h₂
    exact ⟨l₁, l₂, heq, h₁, h₂⟩

/-- Witness for C4: the text `road` scores 1 for Municipal and 1 for
Transport; the tie resolves to Municipal, declared earlier. -/
theorem best_category_tie_break_witness :
    (∃ l₁ l₂, categoryScores "road" = l₁ ++ ("Municipal", 1) :: l₂ ∧
        (∀ p ∈ l₁, p.2 < 1) ∧ (∀ p ∈ l₂, p.2 ≤ 1)) ∧
    ((categoryScores "road").map Prod.fst).Sublist KEYWORD_CATEGORIES :=
  best_category_tie_break "road" "Municipal" 1 (by decide)

/-! ## Claim C8 — the score map holds positive counts, never Other -/

/-- C8: every entry of the keyword score map has a strictly positive
count, and the score map never contains the category Other. -/
theorem categoryScores_positive_not_other (text : String)
    (p : String × Nat) (hp : p ∈ categoryScores text) :
    0 < p.2 ∧ p.1 ≠ "Other" := by
  obtain ⟨h1, h2⟩ := mem_categoryScores hp
  refine ⟨h1, ?_⟩
  intro hother
  rw [hother] at h2
  exact absurd h2 (by decide)

/-- Witness for C8 at the concrete text `road`. -/
theorem categoryScores_positive_not_other_witness :
    0 < (("Municipal", 1) : String × Nat).2 ∧
      (("Municipal", 1) : String × Nat).1 ≠ "Other" :=
  categoryScores_positive_not_other "road" ("Municipal", 1) (by decide)

/-! ## Claim C6 — priority resolution equals the four-rule table -/

/-- C6: `determine_priority` is behaviorally equivalent to the four-rule
table of spec 4.6 for every text, sentiment and category: an urgency
keyword forces Critical; otherwise Negative gives High, Neutral gives
Medium, anything else gives Low.  In particular the extra
Healthcare/Utilities check never changes the output, since it fires
only when the sentiment is Negative and then returns the same High. -/
theorem determine_priority_eq_table (text sentiment category : String) :
    determine_priority text sentiment category =
      priorityTableSpec text sentiment := by
  unfold determine_priority priorityTableSpec
  split_ifs with h1 h2 h3 <;> simp_all

/-! ## Claim C7 — the sentiment decision rule -/

/-- Closed form of `analyze_sentiment`: the empty-input early return
agrees with the general rule because both keyword counts are 0 there. -/
lemma analyze_sentiment_eq (text : String) :
    analyze_sentiment text =
      if countHits negative_keywords (pyLower text) >
           countHits positive_keywords (pyLower text) ∧
         countHits negative_keywords (pyLower text) > 2 then "Negative"
      else if countHits positive_keywords (pyLower text) >
           countHits negative_keywords (pyLower text) then "Positive"
      else "Neutral" := by
  by_cases he : text = ""
  · subst he
    decide
  · simp only [analyze_sentiment, if_neg he]

/-- C7: `analyze_sentiment` returns Negative exactly when the negative
count exceeds the positive count and is greater than 2; otherwise it
returns Positive exactly when the positive count exceeds the negative
count; otherwise (ties, or negative ahead by at most 2 total hits) it
returns Neutral; and the empty input returns Neutral. -/
theorem analyze_sentiment_characterization (text : String) :
    (analyze_sentiment text = "Negative" ↔
      countHits negative_keywords (pyLower text) >
          countHits positive_keywords (pyLower text) ∧
        countHits negative_keywords (pyLower text) > 2) ∧
    (analyze_sentiment text = "Positive" ↔
      ¬(countHits negative_keywords (pyLower text) >
            countHits positive_keywords (pyLower text) ∧
          countHits negative_keywords (pyLower text) > 2) ∧
        countHits positive_keywords (pyLower text) >
          countHits negative_keywords (pyLower text)) ∧
    (analyze_sentiment text = "Neutral" ↔
      ¬(countHits negative_keywords (pyLower text) >
            countHits positive_keywords (pyLower text) ∧
          countHits negative_keywords (pyLower text) > 2) ∧
        ¬(countHits positive_keywords (pyLower text) >
          countHits negative_keywords (pyLower text))) ∧
    analyze_sentiment "" = "Neutral" := by
  rw [analyze_sentiment_eq text]
  refine ⟨?_, ?_, ?_, by decide⟩ <;>
    split_ifs with h1 h2 <;> simp_all

/-! ## Claim C9 — prediction failure falls back to keyword logic -/

/-- C9: when the prediction step raises, `classify_category` returns
exactly the keyword-only result (the result under no ML signal), and
when additionally no keyword matches, it returns `('Other', 0.5)`; no
error propagates (the embedding is a total function). -/
theorem prediction_failure_fallback (text err : String) :
    classify_categoryE text (Except.error err) =
        classify_category text none ∧
      (categoryScores text = [] →
        classify_categoryE text (Except.error err) = ("Other", 1/2)) := by
  refine ⟨rfl, ?_⟩
  intro hs
  unfold classify_categoryE mlSignal classify_category
  by_cases he : text = ""
  · rw [if_pos he]
  · rw [if_neg he, hs]
    rfl

/-- Witness for C9 at a concrete text matching no keyword. -/
theorem prediction_failure_fallback_witness :
    classify_categoryE "zzz" (Except.error "boom") = ("Other", 1/2) :=
  (prediction_failure_fallback "zzz" "boom").2 (by decide)

/-! ## Claim C10 — strong keyword evidence ignores the model -/

/-- C10: whenever the best keyword count is at least 2, the result of
`classify_category` is the same for any two states of the statistical
model (loaded, unloaded or failing): the model cannot influence the
output. -/
theorem strong_keyword_ml_independence (text : String)
    (ml₁ ml₂ : Option (String × ℚ)) (c : String) (n : Nat)
    (h : pickBest (categoryScores text) = some (c, n)) (h2 : 2 ≤ n) :
    classify_category text ml₁ = classify_category text ml₂ := by
  have hne : text ≠ "" := by
    intro he
    subst he
    rw [(by decide : categoryScores "" = [])] at h
    exact Option.noConfusion h
  rw [classify_strong text c n ml₁ hne h h2,
    classify_strong text c n ml₂ hne h h2]

/-- Witness for C10: text with two Municipal keyword hits, compared
under a loaded, confidently-disagreeing model and no model at all. -/
theorem strong_keyword_ml_independence_witness :
    classify_category "pothole and garbage"
        (some ("Transport", 99/100)) =
      classify_category "pothole and garbage" none :=
  strong_keyword_ml_independence "pothole and garbage"
    (some ("Transport", 99/100)) none "Municipal" 2 (by decide) (by decide)

/-! ## Claim C2 — empty title and empty description -/

/-- C2 counterexample: with empty title and empty description the
combined text is the single-space string `" "`, which is truthy, so
the empty-text guard is not taken; with no keyword match the code
falls through to an available ML prediction and does not return
`Other`. -/
theorem empty_input_counterexample :
    (analyze_complaint "" "" (some ("Municipal", 9/10))).category ≠
      "Other" := by
  decide

/-- C2 (amended): with empty title, empty description and no available
ML prediction, the result is category Other, confidence 0.5, sentiment
Neutral, priority Medium; when a prediction is available, the category
and confidence come from the model instead (see the counterexample). -/
theorem empty_input_analysis :
    analyze_complaint "" "" none = ⟨"Other", "Neutral", "Medium", 1/2⟩ := by
  have hc : classify_category (("" : String) ++ " " ++ "") none =
      ("Other", 1/2) := by
    unfold classify_category
    rw [if_neg (by decide),
      (by decide : categoryScores (("" : String) ++ " " ++ "") = [])]
    rfl
  simp only [analyze_complaint, hc]
  have hs : analyze_sentiment (("" : String) ++ " " ++ "") = "Neutral" := by
    decide
  have hp : determine_priority (("" : String) ++ " " ++ "") "Neutral"
      "Other" = "Medium" := by decide
  rw [hs, hp]

/-! ## Claim C5 — the pothole example (Example 1) -/

/-- C5 counterexample: in the Example 1 text the only negative keyword
present is `broken`, so the negative count is 1, not greater than 2,
and the sentiment is Neutral rather than Negative. -/
theorem example1_sentiment_counterexample :
    (analyze_complaint "Pothole on Main Street"
        "There is a large pothole and broken streetlight causing accidents"
        none).sentiment = "Neutral" ∧ ("Neutral" : String) ≠ "Negative" := by
  decide

/-- C5 (amended): for every state of the statistical model, the
Example 1 input is classified Municipal (3 keyword hits: street,
pothole, streetlight, so confidence 3/5), with sentiment Neutral and
priority Critical (the urgency keyword `accident` matches as a
substring of `accidents`). -/
theorem example1_analysis (ml : Option (String × ℚ)) :
    analyze_complaint "Pothole on Main Street"
        "There is a large pothole and broken streetlight causing accidents"
        ml = ⟨"Municipal", "Neutral", "Critical", 3/5⟩ := by
  have hstrong := classify_strong
    ("Pothole on Main Street" ++ " " ++
      "There is a large pothole and broken streetlight causing accidents")
    "Municipal" 3 ml (by decide) (by decide) (by decide)
  simp only [analyze_complaint, hstrong]
  have hs : analyze_sentiment
      ("Pothole on Main Street" ++ " " ++
        "There is a large pothole and broken streetlight causing accidents") =
      "Neutral" := by decide
  have hp : determine_priority
      ("Pothole on Main Street" ++ " " ++
        "There is a large pothole and broken streetlight causing accidents")
      "Neutral" "Municipal" = "Critical" := by decide
  rw [hs, hp]
  simp only [AnalysisResult.mk.injEq]
  refine ⟨trivial, trivial, trivial, ?_⟩
  push_cast
  rw [min_eq_left (by norm_num : (3 : ℚ)/5 ≤ 1)]

/-! ## Claim C3 — result ranges -/

/-- Containment of the keyword categories in the closed category set. -/
lemma keyword_categories_sub {c : String}
    (h : c ∈ KEYWORD_CATEGORIES) : c ∈ CATEGORIES := by
  fin_cases h <;> decide

/-- Bounds for the classifier output, under the assumption that the
model (trained on the keyword table's labels plus `Other`) predicts a
category of the closed set with a probability in [0,1]. -/
lemma classify_category_range (text : String) (ml : Option (String × ℚ))
    (hml : ∀ c p, ml = some (c, p) → c ∈ CATEGORIES ∧ 0 ≤ p ∧ p ≤ 1) :
    (classify_category text ml).1 ∈ CATEGORIES ∧
      0 ≤ (classify_category text ml).2 ∧
      (classify_category text ml).2 ≤ 1 := by
  have hOther : ("Other" : String) ∈ CATEGORIES := by decide
  cases ml with
  | none =>
    unfold classify_category
    by_cases he : text = ""
    · rw [if_pos he]
      exact ⟨hOther, by norm_num, by norm_num⟩
    · rw [if_neg he]
      split
      · next best_category best_score heq =>
        have hc6 : best_category ∈ CATEGORIES :=
          keyword_categories_sub (mem_categoryScores (pickBest_mem heq)).2
        split
        · exact ⟨hc6, le_min (by positivity) (by norm_num), min_le_right _ _⟩
        · exact ⟨hc6, le_min (by positivity) (by norm_num),
            le_trans (min_le_right _ _) (by norm_num)⟩
      · exact ⟨hOther, by norm_num, by norm_num⟩
  | some q =>
    obtain ⟨mc, p⟩ := q
    obtain ⟨hmc, hp0, hp1⟩ := hml mc p rfl
    unfold classify_category
    by_cases he : text = ""
    · rw [if_pos he]
      exact ⟨hOther, by norm_num, by norm_num⟩
    · rw [if_neg he]
      split
      · next best_category best_score heq =>
        have hc6 : best_category ∈ CATEGORIES :=
          keyword_categories_sub (mem_categoryScores (pickBest_mem heq)).2
        split
        · exact ⟨hc6, le_min (by positivity) (by norm_num), min_le_right _ _⟩
        · dsimp only
          split
          · exact ⟨hmc, hp0, hp1⟩
          · exact ⟨hc6, le_min (by positivity) (by norm_num),
              le_trans (min_le_right _ _) (by norm_num)⟩
      · exact ⟨hmc, hp0, hp1⟩

/-- The sentiment analyzer only ever emits the three labels. -/
lemma analyze_sentiment_range (text : String) :
    analyze_sentiment text ∈ (["Positive", "Neutral", "Negative"] :
      List String) := by
  rw [analyze_sentiment_eq text]
  split_ifs <;> decide

/-- The priority resolver only ever emits the four levels. -/
lemma determine_priority_range (text sentiment category : String) :
    determine_priority text sentiment category ∈
      (["Critical", "High", "Medium", "Low"] : List String) := by
  simp only [determine_priority]
  split_ifs <;> decide

/-- C3: for every input and every model state predicting a category of
the closed set with a probability in [0,1], the analysis result has a
category in the closed category set, a confidence in [0,1], a
sentiment among the three labels and a priority among the four
levels. -/
theorem analysis_result_ranges (title description : String)
    (ml : Option (String × ℚ))
    (hml : ∀ c p, ml = some (c, p) → c ∈ CATEGORIES ∧ 0 ≤ p ∧ p ≤ 1) :
    (analyze_complaint title description ml).category ∈ CATEGORIES ∧
      0 ≤ (analyze_complaint title description ml).confidence ∧
      (analyze_complaint title description ml).confidence ≤ 1 ∧
      (analyze_complaint title description ml).sentiment ∈
        (["Positive", "Neutral", "Negative"] : List String) ∧
      (analyze_complaint title description ml).priority ∈
        (["Critical", "High", "Medium", "Low"] : List String) := by
  obtain ⟨h1, h2, h3⟩ :=
    classify_category_range (title ++ " " ++ description) ml hml
  exact ⟨h1, h2, h3,
    analyze_sentiment_range (title ++ " " ++ description),
    determine_priority_range (title ++ " " ++ description) _ _⟩

/-- Witness for C3 at a concrete input with no model. -/
theorem analysis_result_ranges_witness :
    (analyze_complaint "a" "" none).category ∈ CATEGORIES ∧
      0 ≤ (analyze_complaint "a" "" none).confidence ∧
      (analyze_complaint "a" "" none).confidence ≤ 1 ∧
      (analyze_complaint "a" "" none).sentiment ∈
        (["Positive", "Neutral", "Negative"] : List String) ∧
      (analyze_complaint "a" "" none).priority ∈
        (["Critical", "High", "Medium", "Low"] : List String) :=
  analysis_result_ranges "a" "" none (fun _ _ h => Option.noConfusion h)
